import Mathlib

/-!
Shallow embedding of the campaign workflow scheduler of the `Ai Agent`
repository, covering `services/workflow_service.py` (WorkflowService),
`services/smtp_service.py` (SMTPService.send_bulk_emails),
`services/contact_service.py` (recipient lookup) and `models/workflow.py`.

Timestamps are modelled as `Nat`, floating-point rates as `ℚ`.  The MongoDB
document store is modelled as in-memory lists inside a `WFState`, with two
boolean fault flags: `mongoAvailable` (the `mongodb_client` attribute is not
`None`) and `registryWriteOk` (a write to a campaign collection does not
raise).  The APScheduler job store is a list of `Job` records; the flag
`addJobOk` models whether `scheduler.add_job` raises (for example a durable
job-store backend failing).  Each Python method that catches exceptions and
returns a boolean is embedded as a total function returning `Bool × WFState`.
-/

namespace AiAgent

/-- Campaign status enumeration (`models/workflow.py`, `CampaignStatus`). -/
inductive CampaignStatus where
  | draft
  | scheduled
  | active
  | paused
  | completed
  | cancelled
  deriving DecidableEq, Repr

/-- Email delivery status enumeration (`models/workflow.py`, `EmailStatus`). -/
inductive EmailStatus where
  | pending
  | sent
  | failed
  | bounced
  | opened
  | clicked
  | replied
  deriving DecidableEq, Repr

/-- Workflow plan: one optional trigger timestamp per stage
(`models/workflow.py`, `WorkflowPlan`). -/
structure WorkflowPlan where
  invite : Option Nat
  reminder : Option Nat
  thank_you : Option Nat
  follow_up : Option Nat
  deriving DecidableEq, Repr

/-- Campaign targets (`models/workflow.py`, `CampaignTargets`). -/
structure CampaignTargets where
  total_registrations : Nat
  total_emails_sent : Nat
  open_rate_target : ℚ
  click_rate_target : ℚ
  deriving DecidableEq, Repr

/-- A campaign document as stored in the `campaigns` collection
(`models/workflow.py`, `Campaign`). -/
structure Campaign where
  name : String
  title : String
  status : CampaignStatus
  workflow_plan : WorkflowPlan
  targets : CampaignTargets
  created_at : Nat
  updated_at : Nat
  created_by : Option String
  deriving DecidableEq, Repr

/-- An APScheduler job as created by `WorkflowService.schedule_campaign`:
a one-shot date trigger whose `args` are `[campaign_name, email_type,
audience_segments]`.  `paused` models `job.pause()` having been called
(`next_run_time` cleared); for a date trigger `job.resume()` restores
`next_run_time` to the stored `run_date`, so `runDate` is never mutated. -/
structure Job where
  id : String
  runDate : Nat
  paused : Bool
  argCampaign : String
  argStage : String
  argSegments : List String
  deriving DecidableEq, Repr

/-- An email log document in the `email_logs` collection
(`models/workflow.py`, `EmailLog`; `opened`/`clicked` model the dynamic
`log.get('opened', False)` dict fields used by the metrics code). -/
structure EmailLogDoc where
  campaign_name : String
  email : String
  email_type : String
  status : EmailStatus
  message_id : Option String
  error_message : Option String
  opened : Bool
  clicked : Bool
  deriving DecidableEq, Repr

/-- State visible to `WorkflowService`: the document-store collections, the
scheduler's job list, and fault flags for the external store. -/
structure WFState where
  mongoAvailable : Bool
  registryWriteOk : Bool
  addJobOk : Bool
  campaigns : List Campaign
  email_logs : List EmailLogDoc
  jobs : List Job
  deriving DecidableEq, Repr

/-- The four workflow stages handled by `schedule_campaign`. -/
inductive Stage where
  | invite
  | reminder
  | thank_you
  | follow_up
  deriving DecidableEq, Repr

/-- The Python stage-name string of a stage. -/
def stageName : Stage → String
  | .invite => "invite"
  | .reminder => "reminder"
  | .thank_you => "thank_you"
  | .follow_up => "follow_up"

/-- The timestamp a `WorkflowPlan` holds for a stage. -/
def planStage (plan : WorkflowPlan) : Stage → Option Nat
  | .invite => plan.invite
  | .reminder => plan.reminder
  | .thank_you => plan.thank_you
  | .follow_up => plan.follow_up

/-- Job id used by `schedule_campaign`: the f-string
`"{campaign_name}_{stage}"`. -/
def jobId (name : String) (s : Stage) : String :=
  name ++ "_" ++ stageName s

/-- The job `schedule_campaign` hands to `scheduler.add_job` for one stage. -/
def mkJob (name : String) (s : Stage) (t : Nat) (segs : List String) : Job :=
  { id := jobId name s
    runDate := t
    paused := false
    argCampaign := name
    argStage := stageName s
    argSegments := segs }

/-- `scheduler.add_job(..., id := job_id, replace_existing := True)`:
any existing job with the same id is removed. -/
def addJob (jobs : List Job) (j : Job) : List Job :=
  (jobs.filter fun k => k.id ≠ j.id) ++ [j]

/-- One `if workflow_plan.<stage>: ... add_job ...` block of
`schedule_campaign`. -/
def stepStage (name : String) (plan : WorkflowPlan) (segs : List String)
    (jobs : List Job) (s : Stage) : List Job :=
  match planStage plan s with
  | some t => addJob jobs (mkJob name s t segs)
  | none => jobs

/-- The four sequential stage-scheduling blocks of `schedule_campaign`
(lines 124-172), in source order: invite, reminder, thank_you, follow_up. -/
def scheduleStages (name : String) (plan : WorkflowPlan) (segs : List String)
    (jobs : List Job) : List Job :=
  stepStage name plan segs
    (stepStage name plan segs
      (stepStage name plan segs
        (stepStage name plan segs jobs .invite) .reminder) .thank_you) .follow_up

/-- Whether a `WorkflowPlan` has at least one non-null stage timestamp. -/
def hasStage (plan : WorkflowPlan) : Bool :=
  plan.invite.isSome || plan.reminder.isSome ||
    plan.thank_you.isSome || plan.follow_up.isSome

/-- `campaigns_collection.replace_one({'name': name}, doc, upsert=True)`:
replace the matching document, or append when none matches. -/
def replaceOne (cs : List Campaign) (c : Campaign) : List Campaign :=
  if cs.any fun d => d.name = c.name then
    cs.map fun d => if d.name = c.name then c else d
  else
    cs ++ [c]

/-- Boolean prefix test on strings, modelling Python `str.startswith`
by comparison of the underlying character lists. -/
def strStarts (s p : String) : Bool :=
  p.data.isPrefixOf s.data

/-- `WorkflowService.schedule_campaign` (workflow_service.py lines 94-179).
The campaign record is written with `replace_one ... upsert=True` only when
`mongodb_client` is available, and a failing write is caught and logged
(lines 118-119) without aborting; job creation failure (the job store
raising from the first attempted `add_job`) escapes to the outer handler,
which returns `False`.  Returns the boolean result and the new state. -/
def schedule_campaign (st : WFState) (now : Nat) (name : String)
    (plan : WorkflowPlan) (targets : CampaignTargets) (segs : List String) :
    Bool × WFState :=
  let campaign : Campaign :=
    { name := name
      title := name
      status := .scheduled
      workflow_plan := plan
      targets := targets
      created_at := now
      updated_at := now
      created_by := some "system" }
  let campaigns1 :=
    if st.mongoAvailable && st.registryWriteOk then
      replaceOne st.campaigns campaign
    else
      st.campaigns
  if st.addJobOk then
    (true, { st with campaigns := campaigns1,
                     jobs := scheduleStages name plan segs st.jobs })
  else if hasStage plan then
    (false, { st with campaigns := campaigns1 })
  else
    (true, { st with campaigns := campaigns1 })

/-- `update_one({'name': name}, {'$set': {'status': s, 'updated_at': now}})`
on the campaigns collection: mutate the matching document, no upsert. -/
def setStatus (cs : List Campaign) (name : String) (s : CampaignStatus)
    (now : Nat) : List Campaign :=
  cs.map fun d =>
    if d.name = name then { d with status := s, updated_at := now } else d

/-- The job loop of `pause_campaign`: `job.pause()` on every job whose id
starts with `"{campaign_name}_"`. -/
def pauseJobs (name : String) (jobs : List Job) : List Job :=
  jobs.map fun j =>
    if strStarts j.id (name ++ "_") then { j with paused := true } else j

/-- The job loop of `resume_campaign`: `job.resume()` on every job whose id
starts with `"{campaign_name}_"`. -/
def resumeJobs (name : String) (jobs : List Job) : List Job :=
  jobs.map fun j =>
    if strStarts j.id (name ++ "_") then { j with paused := false } else j

/-- `WorkflowService.pause_campaign` (lines 181-207).  When
`mongodb_client` is `None`, `self.mongodb_client.get_collection` raises
`AttributeError` before anything happens; a raising status write likewise
aborts before the job loop; both paths are caught and return `False`. -/
def pause_campaign (st : WFState) (now : Nat) (name : String) :
    Bool × WFState :=
  if st.mongoAvailable then
    if st.registryWriteOk then
      (true, { st with campaigns := setStatus st.campaigns name .paused now,
                       jobs := pauseJobs name st.jobs })
    else
      (false, st)
  else
    (false, st)

/-- `WorkflowService.resume_campaign` (lines 209-235); sets status
`ACTIVE` and resumes the campaign's jobs, symmetric to `pause_campaign`. -/
def resume_campaign (st : WFState) (now : Nat) (name : String) :
    Bool × WFState :=
  if st.mongoAvailable then
    if st.registryWriteOk then
      (true, { st with campaigns := setStatus st.campaigns name .active now,
                       jobs := resumeJobs name st.jobs })
    else
      (false, st)
  else
    (false, st)

/-- Outcome of processing one element of the bulk list in
`SMTPService.send_bulk_emails`: `send_email` returned a message id, or
returned `None` after an SMTP error, or the loop body raised. -/
inductive SendOutcome where
  | ok (message_id : String)
  | smtpError
  | raised (msg : String)
  deriving DecidableEq, Repr

/-- One email of the bulk list handed to `send_bulk_emails`; `toAddr` is
the dict's `'to'` field. -/
structure EmailData where
  toAddr : String
  subject : String
  body : String
  campaign_name : String
  email_type : String
  deriving DecidableEq, Repr

/-- The log entry `send_bulk_emails` appends for one email of its list:
`SENT` with the message id on success; `FAILED` with
`"Failed to send email"` when `send_email` returned `None` (lines
134-141); `FAILED` with the exception text when the loop body raised
(lines 145-154). -/
def mkBulkLog (outcome : EmailData → SendOutcome) (e : EmailData) :
    EmailLogDoc :=
  match outcome e with
  | .ok mid =>
    { campaign_name := e.campaign_name, email := e.toAddr,
      email_type := e.email_type, status := .sent,
      message_id := some mid, error_message := none,
      opened := false, clicked := false }
  | .smtpError =>
    { campaign_name := e.campaign_name, email := e.toAddr,
      email_type := e.email_type, status := .failed,
      message_id := none, error_message := some "Failed to send email",
      opened := false, clicked := false }
  | .raised m =>
    { campaign_name := e.campaign_name, email := e.toAddr,
      email_type := e.email_type, status := .failed,
      message_id := none, error_message := some m,
      opened := false, clicked := false }

/-- `SMTPService.send_bulk_emails` (smtp_service.py lines 120-156): a loop
over the list appending exactly one log entry per element, with the
per-element transport behaviour abstracted as an outcome oracle. -/
def send_bulk_emails (outcome : EmailData → SendOutcome)
    (email_list : List EmailData) : List EmailLogDoc :=
  email_list.map (mkBulkLog outcome)

/-- The jobs in a job list that carry a given id. -/
def jobsWithId (jobs : List Job) (id : String) : List Job :=
  jobs.filter fun j => j.id = id

/-- Number of jobs in a job list that carry a given id. -/
def countId (jobs : List Job) (id : String) : Nat :=
  (jobsWithId jobs id).length

/-- One call to `schedule_campaign`, for iterating call sequences. -/
structure ScheduleCall where
  now : Nat
  name : String
  plan : WorkflowPlan
  targets : CampaignTargets
  segs : List String
  deriving DecidableEq, Repr

/-- Fold a sequence of `schedule_campaign` calls over a state. -/
def runSchedules (calls : List ScheduleCall) (st : WFState) : WFState :=
  calls.foldl
    (fun s c => (schedule_campaign s c.now c.name c.plan c.targets c.segs).snd)
    st

lemma jobsWithId_addJob_self (js : List Job) (j : Job) :
    jobsWithId (addJob js j) j.id = [j] := by
  induction js with
  | nil => simp [jobsWithId, addJob]
  | cons k ks ih =>
    by_cases h : k.id = j.id <;>
      simp_all [jobsWithId, addJob]

lemma jobsWithId_addJob_other (js : List Job) (j : Job) (id : String)
    (h : id ≠ j.id) : jobsWithId (addJob js j) id = jobsWithId js id := by
  induction js with
  | nil => simp [jobsWithId, addJob, Ne.symm h]
  | cons k ks ih =>
    by_cases hk : k.id = j.id <;> by_cases hi : k.id = id <;>
      simp_all [jobsWithId, addJob]

lemma stageName_inj {s s' : Stage} (h : stageName s = stageName s') :
    s = s' := by
  cases s <;> cases s' <;> first | rfl | (exfalso; revert h; decide)

lemma jobId_inj (name : String) {s s' : Stage} (h : s ≠ s') :
    jobId name s ≠ jobId name s' := by
  intro he
  apply h
  apply stageName_inj
  have hd := congrArg String.data he
  simp only [jobId, String.data_append, List.append_assoc] at hd
  have hd2 := List.append_cancel_left hd
  have hd3 := List.append_cancel_left hd2
  cases hs : stageName s
  cases hs' : stageName s'
  simp_all

lemma stepStage_none {plan : WorkflowPlan} {s : Stage} (name : String)
    (segs : List String) (js : List Job) (h : planStage plan s = none) :
    stepStage name plan segs js s = js := by
  simp [stepStage, h]

lemma jobsWithId_stepStage_self {plan : WorkflowPlan} {s : Stage} {t : Nat}
    (name : String) (segs : List String) (js : List Job)
    (h : planStage plan s = some t) :
    jobsWithId (stepStage name plan segs js s) (jobId name s) =
      [mkJob name s t segs] := by
  rw [stepStage, h]
  exact jobsWithId_addJob_self js (mkJob name s t segs)

lemma jobsWithId_stepStage_ne {s s' : Stage} (hne : s ≠ s') (name : String)
    (plan : WorkflowPlan) (segs : List String) (js : List Job) :
    jobsWithId (stepStage name plan segs js s') (jobId name s) =
      jobsWithId js (jobId name s) := by
  rw [stepStage]
  cases hp : planStage plan s' with
  | none => rfl
  | some t => exact jobsWithId_addJob_other js _ _ (jobId_inj name hne)

lemma jobsWithId_scheduleStages (name : String) (plan : WorkflowPlan)
    (segs : List String) (js : List Job) (s : Stage) :
    jobsWithId (scheduleStages name plan segs js) (jobId name s) =
      match planStage plan s with
      | some t => [mkJob name s t segs]
      | none => jobsWithId js (jobId name s) := by
  cases s with
  | invite =>
    rw [scheduleStages, jobsWithId_stepStage_ne (by decide),
        jobsWithId_stepStage_ne (by decide), jobsWithId_stepStage_ne (by decide)]
    cases hp : planStage plan .invite with
    | some t => simp [jobsWithId_stepStage_self name segs js hp]
    | none => simp [stepStage_none name segs js hp]
  | reminder =>
    rw [scheduleStages, jobsWithId_stepStage_ne (by decide),
        jobsWithId_stepStage_ne (by decide)]
    cases hp : planStage plan .reminder with
    | some t => simp [jobsWithId_stepStage_self name segs _ hp]
    | none => rw [stepStage_none name segs _ hp,
        jobsWithId_stepStage_ne (by decide)]
  | thank_you =>
    rw [scheduleStages, jobsWithId_stepStage_ne (by decide)]
    cases hp : planStage plan .thank_you with
    | some t => simp [jobsWithId_stepStage_self name segs _ hp]
    | none => rw [stepStage_none name segs _ hp,
        jobsWithId_stepStage_ne (by decide), jobsWithId_stepStage_ne (by decide)]
  | follow_up =>
    rw [scheduleStages]
    cases hp : planStage plan .follow_up with
    | some t => simp [jobsWithId_stepStage_self name segs _ hp]
    | none => rw [stepStage_none name segs _ hp,
        jobsWithId_stepStage_ne (by decide), jobsWithId_stepStage_ne (by decide),
        jobsWithId_stepStage_ne (by decide)]

lemma countId_stepStage_le (name : String) (plan : WorkflowPlan)
    (segs : List String) (js : List Job) (s : Stage) (id : String)
    (h : countId js id ≤ 1) :
    countId (stepStage name plan segs js s) id ≤ 1 := by
  rw [stepStage]
  cases hp : planStage plan s with
  | none => exact h
  | some t =>
    by_cases hid : id = (mkJob name s t segs).id
    · subst hid
      simp [countId, jobsWithId_addJob_self]
    · rw [countId, jobsWithId_addJob_other _ _ _ hid]
      exact h

lemma countId_scheduleStages_le (name : String) (plan : WorkflowPlan)
    (segs : List String) (js : List Job) (id : String)
    (h : countId js id ≤ 1) :
    countId (scheduleStages name plan segs js) id ≤ 1 := by
  rw [scheduleStages]
  exact countId_stepStage_le _ _ _ _ _ _
    (countId_stepStage_le _ _ _ _ _ _
      (countId_stepStage_le _ _ _ _ _ _
        (countId_stepStage_le _ _ _ _ _ _ h)))

lemma countId_schedule_le (st : WFState) (now : Nat) (name : String)
    (plan : WorkflowPlan) (targets : CampaignTargets) (segs : List String)
    (id : String) (h : countId st.jobs id ≤ 1) :
    countId (schedule_campaign st now name plan targets segs).snd.jobs id
      ≤ 1 := by
  rw [schedule_campaign]
  by_cases ha : st.addJobOk <;> by_cases hs : hasStage plan <;>
    simp [ha, hs, countId_scheduleStages_le _ _ _ _ _ h, h]

lemma countId_runSchedules_le (calls : List ScheduleCall) :
    ∀ st : WFState, (∀ id, countId st.jobs id ≤ 1) →
      ∀ id, countId (runSchedules calls st).jobs id ≤ 1 := by
  induction calls with
  | nil => intro st h id; exact h id
  | cons c cs ih =>
    intro st h id
    exact ih _ (fun i => countId_schedule_le st c.now c.name c.plan
      c.targets c.segs i (h i)) id

lemma resumeJobs_pauseJobs (name : String) (js : List Job)
    (h : ∀ j ∈ js, strStarts j.id (name ++ "_") = true → j.paused = false) :
    resumeJobs name (pauseJobs name js) = js := by
  induction js with
  | nil => rfl
  | cons j ks ih =>
    have hj := h j (by simp)
    have hks := ih fun k hk => h k (by simp [hk])
    by_cases hs : strStarts j.id (name ++ "_") = true
    · cases j with
      | mk id runDate paused argCampaign argStage argSegments =>
        simp only [resumeJobs, pauseJobs, List.map_cons] at *
        simp_all
    · simp only [resumeJobs, pauseJobs, List.map_cons] at *
      simp_all

lemma schedule_jobs_of_addJobOk (st : WFState) (now : Nat) (name : String)
    (plan : WorkflowPlan) (targets : CampaignTargets) (segs : List String)
    (hok : st.addJobOk = true) :
    (schedule_campaign st now name plan targets segs).snd.jobs
      = scheduleStages name plan segs st.jobs := by
  rw [schedule_campaign]
  simp [hok]

lemma schedule_addJobOk (st : WFState) (now : Nat) (name : String)
    (plan : WorkflowPlan) (targets : CampaignTargets) (segs : List String) :
    (schedule_campaign st now name plan targets segs).snd.addJobOk
      = st.addJobOk := by
  rw [schedule_campaign]
  by_cases ha : st.addJobOk <;> by_cases hs : hasStage plan <;> simp [ha, hs]

/-- All-zero campaign targets, used as a concrete fixture. -/
def targets0 : CampaignTargets :=
  { total_registrations := 0, total_emails_sent := 0,
    open_rate_target := 0, click_rate_target := 0 }

/-- Healthy empty state: document store reachable, writes succeed, job
store accepts jobs. -/
def st0 : WFState :=
  { mongoAvailable := true, registryWriteOk := true, addJobOk := true,
    campaigns := [], email_logs := [], jobs := [] }

/-- Plan with only the invite stage set, at timestamp 5. -/
def plan1 : WorkflowPlan :=
  { invite := some 5, reminder := none, thank_you := none, follow_up := none }

/-- Plan with only the invite stage set, at timestamp 7. -/
def plan2 : WorkflowPlan :=
  { invite := some 7, reminder := none, thank_you := none, follow_up := none }

/-- Claim C1, counterexample: in a state whose Registry (campaign
collection) write fails with a storage error while the job store works,
`schedule_campaign` returns `True` — the write failure is caught at lines
118-119 and only logged, so the claim that schedule returns failure
whenever the Registry write fails is false. -/
theorem claim_C1_counterexample :
    (schedule_campaign
      { mongoAvailable := true, registryWriteOk := false, addJobOk := true,
        campaigns := [], email_logs := [], jobs := [] }
      0 "camp" plan1 targets0 []).fst = true := by
  rfl

/-- Claim C1 (amended): `schedule_campaign` returns failure exactly when
stage-job creation fails and the plan has at least one non-null stage; a
failing Registry write is swallowed (logged only) and does not make the
call fail, and a plan with some null stages (or even all stages null) is
not a failure. -/
theorem claim_C1_schedule_result (st : WFState) (now : Nat) (name : String)
    (plan : WorkflowPlan) (targets : CampaignTargets) (segs : List String) :
    (schedule_campaign st now name plan targets segs).fst
      = (st.addJobOk || !hasStage plan) := by
  rw [schedule_campaign]
  by_cases ha : st.addJobOk <;> by_cases hs : hasStage plan <;> simp [ha, hs]

/-- Claim C4: for every `WorkflowPlan` with at least one non-null stage
timestamp (and a working job store), `schedule_campaign` leaves exactly
one job with id `"{campaign_name}_{stage}"`, trigger time equal to that
stage's timestamp and the expected args, for each non-null stage, and
creates no job for a null stage (the jobs with that id are exactly the
pre-existing ones). -/
theorem claim_C4_one_job_per_stage (st : WFState) (now : Nat)
    (name : String) (plan : WorkflowPlan) (targets : CampaignTargets)
    (segs : List String) (hok : st.addJobOk = true)
    (hne : hasStage plan = true) (s : Stage) :
    (∀ t, planStage plan s = some t →
      jobsWithId (schedule_campaign st now name plan targets segs).snd.jobs
        (jobId name s) = [mkJob name s t segs]) ∧
    (planStage plan s = none →
      jobsWithId (schedule_campaign st now name plan targets segs).snd.jobs
        (jobId name s) = jobsWithId st.jobs (jobId name s)) := by
  have hjobs := schedule_jobs_of_addJobOk st now name plan targets segs hok
  constructor
  · intro t ht
    rw [hjobs, jobsWithId_scheduleStages, ht]
  · intro ht
    rw [hjobs, jobsWithId_scheduleStages, ht]

/-- Witness for claim C4 at a concrete input: scheduling `plan1` (invite
at 5, other stages null) in the healthy empty state yields exactly one
invite job and no reminder job. -/
theorem claim_C4_witness :
    jobsWithId (schedule_campaign st0 0 "c" plan1 targets0 []).snd.jobs
      (jobId "c" .invite) = [mkJob "c" .invite 5 []] ∧
    jobsWithId (schedule_campaign st0 0 "c" plan1 targets0 []).snd.jobs
      (jobId "c" .reminder) = jobsWithId st0.jobs (jobId "c" .reminder) :=
  ⟨(claim_C4_one_job_per_stage st0 0 "c" plan1 targets0 [] rfl rfl
      .invite).1 5 rfl,
   (claim_C4_one_job_per_stage st0 0 "c" plan1 targets0 [] rfl rfl
      .reminder).2 rfl⟩

/-- Claim C5: after any sequence of `schedule_campaign` calls starting
from a state whose job store holds at most one job per id, every id still
has at most one job; and re-calling `schedule_campaign` with the same
campaign name and a modified timestamp for an already-scheduled stage
replaces that stage's job, the second call's timestamp winning. -/
theorem claim_C5_reschedule_replaces :
    (∀ (st : WFState) (calls : List ScheduleCall),
      (∀ id, countId st.jobs id ≤ 1) →
      ∀ id, countId (runSchedules calls st).jobs id ≤ 1) ∧
    (∀ (st : WFState) (now₁ now₂ : Nat) (name : String)
      (plan₁ plan₂ : WorkflowPlan) (targets₁ targets₂ : CampaignTargets)
      (segs₁ segs₂ : List String) (s : Stage) (t₁ t₂ : Nat),
      st.addJobOk = true →
      planStage plan₁ s = some t₁ → planStage plan₂ s = some t₂ →
      jobsWithId
        ((schedule_campaign
            (schedule_campaign st now₁ name plan₁ targets₁ segs₁).snd
            now₂ name plan₂ targets₂ segs₂).snd).jobs
        (jobId name s) = [mkJob name s t₂ segs₂]) := by
  constructor
  · exact fun st calls h id => countId_runSchedules_le calls st h id
  · intro st n1 n2 name p1 p2 tg1 tg2 sg1 sg2 s t1 t2 hok h1 h2
    have hok2 : ((schedule_campaign st n1 name p1 tg1 sg1).snd).addJobOk
        = true := by
      rw [schedule_addJobOk]; exact hok
    rw [schedule_jobs_of_addJobOk _ _ _ _ _ _ hok2,
        jobsWithId_scheduleStages, h2]

/-- Witness for claim C5 at a concrete input: one schedule call from the
empty healthy state keeps at most one invite job, and re-scheduling the
invite stage at timestamp 7 after first scheduling it at 5 leaves exactly
the timestamp-7 job. -/
theorem claim_C5_witness :
    countId (runSchedules [⟨0, "c", plan1, targets0, []⟩] st0).jobs
      (jobId "c" .invite) ≤ 1 ∧
    jobsWithId
      ((schedule_campaign (schedule_campaign st0 0 "c" plan1 targets0 []).snd
          1 "c" plan2 targets0 []).snd).jobs
      (jobId "c" .invite) = [mkJob "c" .invite 7 []] :=
  ⟨claim_C5_reschedule_replaces.1 st0 [⟨0, "c", plan1, targets0, []⟩]
      (fun id => by simp [st0, countId, jobsWithId]) (jobId "c" .invite),
   claim_C5_reschedule_replaces.2 st0 0 1 "c" plan1 plan2 targets0 targets0
      [] [] .invite 5 7 rfl rfl rfl⟩

/-- Claim C6: for a campaign whose pending jobs are not paused,
`pause_campaign` followed immediately by `resume_campaign` restores the
job store exactly — in particular every job keeps its original trigger
timestamp (a paused date job's `resume` recomputes `next_run_time` from
the stored `run_date`, which is never mutated). -/
theorem claim_C6_pause_resume_jobs (st : WFState) (now₁ now₂ : Nat)
    (name : String)
    (h : ∀ j ∈ st.jobs, strStarts j.id (name ++ "_") = true →
      j.paused = false) :
    (resume_campaign (pause_campaign st now₁ name).snd now₂ name).snd.jobs
      = st.jobs := by
  by_cases hm : st.mongoAvailable <;> by_cases hw : st.registryWriteOk <;>
    simp [pause_campaign, resume_campaign, hm, hw]
  exact resumeJobs_pauseJobs name st.jobs h

/-- Witness for claim C6 at a concrete input: a state holding one pending
invite job for campaign `c` and one paused job of another campaign is
restored exactly by the pause/resume cycle. -/
theorem claim_C6_witness :
    (resume_campaign
      (pause_campaign
        { st0 with jobs := [mkJob "c" .invite 5 [],
          { id := "d_invite", runDate := 9, paused := true,
            argCampaign := "d", argStage := "invite", argSegments := [] }] }
        1 "c").snd
      2 "c").snd.jobs
      = [mkJob "c" .invite 5 [],
         { id := "d_invite", runDate := 9, paused := true,
           argCampaign := "d", argStage := "invite", argSegments := [] }] :=
  claim_C6_pause_resume_jobs _ 1 2 "c" (by decide)

/-- Claim C9: with the document-store client unavailable
(`mongodb_client is None`), `pause_campaign` and `resume_campaign` return
`False` and leave the state (in particular every job) untouched, because
the status write raises before the job loop; yet `schedule_campaign` in
the same state still returns `True`, scheduling on the in-memory job
store. -/
theorem claim_C9_mongo_down (st : WFState) (now : Nat) (name : String)
    (plan : WorkflowPlan) (targets : CampaignTargets) (segs : List String)
    (hm : st.mongoAvailable = false) (ha : st.addJobOk = true) :
    pause_campaign st now name = (false, st) ∧
    resume_campaign st now name = (false, st) ∧
    (schedule_campaign st now name plan targets segs).fst = true := by
  refine ⟨?_, ?_, ?_⟩ <;>
    simp [pause_campaign, resume_campaign, schedule_campaign, hm, ha]

/-- Witness for claim C9 at a concrete input: the empty state with the
document store down but the in-memory job store working. -/
theorem claim_C9_witness :
    pause_campaign { st0 with mongoAvailable := false } 0 "c"
        = (false, { st0 with mongoAvailable := false }) ∧
    resume_campaign { st0 with mongoAvailable := false } 0 "c"
        = (false, { st0 with mongoAvailable := false }) ∧
    (schedule_campaign { st0 with mongoAvailable := false } 0 "c" plan1
        targets0 []).fst = true :=
  claim_C9_mongo_down _ 0 "c" plan1 targets0 [] rfl rfl

/-- Claim C8: `send_bulk_emails` appends exactly one log entry per
element of the batch, in order, and entry `i` is a function of batch
element `i` alone — so a failing send for one recipient (a raised
exception or an SMTP error, both yielding a `failed` log for that
recipient) cannot suppress or alter the log entries of the remaining
recipients of the batch. -/
theorem claim_C8_one_log_per_outcome (outcome : EmailData → SendOutcome)
    (email_list : List EmailData) (i : Nat) :
    (send_bulk_emails outcome email_list).length = email_list.length ∧
    (send_bulk_emails outcome email_list)[i]?
      = (email_list[i]?).map (mkBulkLog outcome) ∧
    (∀ e m, outcome e = .raised m →
      (mkBulkLog outcome e).status = .failed
        ∧ (mkBulkLog outcome e).email = e.toAddr) ∧
    (∀ e, outcome e = .smtpError → (mkBulkLog outcome e).status = .failed) ∧
    (∀ e mid, outcome e = .ok mid → (mkBulkLog outcome e).status = .sent) := by
  refine ⟨List.length_map _ _, ?_, ?_, ?_, ?_⟩
  · rw [send_bulk_emails, List.getElem?_map]
  · intro e m h
    constructor <;> simp [mkBulkLog, h]
  · intro e h
    simp [mkBulkLog, h]
  · intro e mid h
    simp [mkBulkLog, h]

/-- Transport oracle fixture: the address `bad@x` raises, every other
address is delivered with message id `m1`. -/
def bulkOutcome : EmailData → SendOutcome :=
  fun e => if e.toAddr = "bad@x" then .raised "boom" else .ok "m1"

/-- Bulk email fixture addressed to one recipient. -/
def mailTo (a : String) : EmailData :=
  { toAddr := a, subject := "s", body := "b", campaign_name := "A",
    email_type := "invite" }

/-- Witness for claim C8 at a concrete input: a three-element batch whose
middle recipient fails still yields three log entries, the recipient
after the failure gets its log entry, and the failing recipient gets a
`failed` entry. -/
theorem claim_C8_witness :
    (send_bulk_emails bulkOutcome
        [mailTo "g1@x", mailTo "bad@x", mailTo "g2@x"]).length = 3 ∧
    (send_bulk_emails bulkOutcome
        [mailTo "g1@x", mailTo "bad@x", mailTo "g2@x"])[2]?
      = some (mkBulkLog bulkOutcome (mailTo "g2@x")) ∧
    (mkBulkLog bulkOutcome (mailTo "bad@x")).status = .failed := by
  refine ⟨(claim_C8_one_log_per_outcome bulkOutcome
      [mailTo "g1@x", mailTo "bad@x", mailTo "g2@x"] 2).1, ?_, ?_⟩
  · rw [(claim_C8_one_log_per_outcome bulkOutcome
      [mailTo "g1@x", mailTo "bad@x", mailTo "g2@x"] 2).2.1]
    rfl
  · exact ((claim_C8_one_log_per_outcome bulkOutcome
      [mailTo "g1@x", mailTo "bad@x", mailTo "g2@x"] 2).2.2.1
      (mailTo "bad@x") "boom" (by decide)).1

end AiAgent
